import Mathlib

/-!
Shallow embedding of the SleepDriver drowsiness-detection core
(`sleep_detector.py`), covering the landmark-based Eye-Aspect-Ratio
estimator `calculate_ear` and the per-frame drowsiness state machine of
the main loop (counter, alarm flag, EAR smoothing window, reset on the
user key), together with theorems settling the spec claims about them.

Coordinates and EAR values are embedded as rationals; the Python list of
recent EAR values becomes a Lean `List ℚ`; the frame counter becomes a
`ℕ` (Python's `max(0, COUNTER - 1)` is `ℕ` truncated subtraction).
-/

set_option maxRecDepth 100000

namespace SleepDriver

/-- A facial landmark as consumed by `calculate_ear`: only its `x` and `y`
coordinates are read by the estimator. -/
structure Landmark where
  x : ℚ
  y : ℚ

/-- Mean of the `y` coordinates of a list of landmarks, as in
`np.mean([landmark.y for landmark in ...])` (lines 119-120). Empty input
never occurs at the call sites (slices of a 16-element list). -/
def meanY (l : List Landmark) : ℚ :=
  (l.map Landmark.y).sum / (l.length : ℚ)

/-- Maximum of a list of rationals, as Python's `max` on a nonempty list;
the `[]` case is unreachable at the call site (guarded by length 16) and
returns a dummy 0. -/
def listMax : List ℚ → ℚ
  | [] => 0
  | a :: as => as.foldl max a

/-- Minimum of a list of rationals, as Python's `min` on a nonempty list;
the `[]` case is unreachable at the call site. -/
def listMin : List ℚ → ℚ
  | [] => 0
  | a :: as => as.foldl min a

/-- Eye width of `calculate_ear` (lines 123-124):
`abs(max(x over landmarks) - min(x over landmarks))`. -/
def eyeWidth (l : List Landmark) : ℚ :=
  |listMax (l.map Landmark.x) - listMin (l.map Landmark.x)|

/-- Embedding of `calculate_ear` (sleep_detector.py lines 88-133): guard on
exactly 16 landmarks (else 0.0), split into first 8 (upper lid) and last 8
(lower lid), eye height = |mean upper y - mean lower y|, and divide by the
eye width only under the `eye_width > 0` guard (else 0.0). -/
def calculate_ear (eye_landmarks : List Landmark) : ℚ :=
  if eye_landmarks.length = 16 then
    if 0 < eyeWidth eye_landmarks then
      |meanY (eye_landmarks.take 8) - meanY (eye_landmarks.drop 8)| /
        eyeWidth eye_landmarks
    else 0
  else 0

/-- Synthetic eye of the spec's estimator test: 8 upper landmarks at
y = 0.4, 8 lower landmarks at y = 0.5, x coordinates spanning [0.0, 0.2]. -/
def synthEye : List Landmark :=
  [⟨0, 2/5⟩, ⟨1/5, 2/5⟩, ⟨1/10, 2/5⟩, ⟨1/10, 2/5⟩,
   ⟨1/10, 2/5⟩, ⟨1/10, 2/5⟩, ⟨1/10, 2/5⟩, ⟨1/10, 2/5⟩,
   ⟨1/10, 1/2⟩, ⟨1/10, 1/2⟩, ⟨1/10, 1/2⟩, ⟨1/10, 1/2⟩,
   ⟨1/10, 1/2⟩, ⟨1/10, 1/2⟩, ⟨1/10, 1/2⟩, ⟨1/10, 1/2⟩]

/-- Degenerate eye: 16 landmarks all with the same x coordinate 1/10
(zero eye width). -/
def degenEye : List Landmark :=
  [⟨1/10, 2/5⟩, ⟨1/10, 2/5⟩, ⟨1/10, 2/5⟩, ⟨1/10, 2/5⟩,
   ⟨1/10, 2/5⟩, ⟨1/10, 2/5⟩, ⟨1/10, 2/5⟩, ⟨1/10, 2/5⟩,
   ⟨1/10, 1/2⟩, ⟨1/10, 1/2⟩, ⟨1/10, 1/2⟩, ⟨1/10, 1/2⟩,
   ⟨1/10, 1/2⟩, ⟨1/10, 1/2⟩, ⟨1/10, 1/2⟩, ⟨1/10, 1/2⟩]

/-- Per-frame drowsiness status displayed by the main loop: the default
`"Status: Awake"` text, overwritten with `"Status: DROWSY!"` only inside
the low-smoothed-EAR branch (lines 231 and 319). -/
inductive Status where
  | Awake
  | Drowsy
deriving DecidableEq, Repr

/-- Alarm transition event of one frame: `TurnedOn` corresponds to the
guarded block at lines 307-316 (set `ALARM_ON`, play the alarm, log);
`TurnedOff` corresponds to `ALARM_ON` being cleared at lines 332-333 while
it was previously set. -/
inductive AlarmEvent where
  | TurnedOn
  | TurnedOff
deriving DecidableEq, Repr

/-- Mutable state of the detection loop: `COUNTER` (consecutive-closed
counter, line 185), `ALARM_ON` (line 186) and `ear_history` (the smoothing
window, line 189). -/
structure DetState where
  counter : ℕ
  alarm_on : Bool
  ear_history : List ℚ
deriving DecidableEq, Repr

/-- Configuration read from the command line: `args.ear` (EAR threshold)
and `args.frames` (required consecutive frames). -/
structure Cfg where
  ear : ℚ
  frames : ℕ
deriving DecidableEq, Repr

/-- Hysteresis margin hardcoded at line 327: `args.ear + 0.02`. -/
def margin : ℚ := 2/100

/-- Initial state of the loop (lines 185-189): counter 0, alarm off,
empty window. -/
def init : DetState := ⟨0, false, []⟩

/-- Window push of lines 283-285: append the new combined EAR, then pop
the oldest element when the length exceeds 5. -/
def pushEar (h : List ℚ) (e : ℚ) : List ℚ :=
  if 5 < (h ++ [e]).length then (h ++ [e]).tail else h ++ [e]

/-- Smoothed EAR of line 288: `sum(ear_history) / len(ear_history)`. The
call sites pass the just-pushed (hence nonempty) window. -/
def smoothedEar (h : List ℚ) : ℚ :=
  h.sum / (h.length : ℚ)

/-- One iteration of the per-frame state logic (lines 281-342), for one
input frame consisting of the combined EAR `e` and the face-detected flag.
Returns the new state, the alarm transition event of this frame (if any),
and the status text displayed on this frame. With a face: push `e` into
the window and compare the smoothed EAR against the threshold
(increment / hysteresis-gated decrement). Without a face: only
`COUNTER = max(0, COUNTER - 1)` (line 342). -/
def update (cfg : Cfg) (s : DetState) (e : ℚ) (face : Bool) :
    DetState × Option AlarmEvent × Status :=
  match face with
  | true =>
    if smoothedEar (pushEar s.ear_history e) < cfg.ear then
      if cfg.frames ≤ s.counter + 1 then
        if s.alarm_on then
          (⟨s.counter + 1, true, pushEar s.ear_history e⟩, none, Status.Drowsy)
        else
          (⟨s.counter + 1, true, pushEar s.ear_history e⟩,
            some AlarmEvent.TurnedOn, Status.Drowsy)
      else
        (⟨s.counter + 1, s.alarm_on, pushEar s.ear_history e⟩, none, Status.Awake)
    else
      if cfg.ear + margin < smoothedEar (pushEar s.ear_history e) then
        if s.counter - 1 = 0 then
          (⟨s.counter - 1, false, pushEar s.ear_history e⟩,
            if s.alarm_on then some AlarmEvent.TurnedOff else none, Status.Awake)
        else
          (⟨s.counter - 1, s.alarm_on, pushEar s.ear_history e⟩, none, Status.Awake)
      else
        (⟨s.counter, s.alarm_on, pushEar s.ear_history e⟩, none, Status.Awake)
  | false =>
    (⟨s.counter - 1, s.alarm_on, s.ear_history⟩, none, Status.Awake)

/-- Reset on the `r` key (lines 374-378): `COUNTER = 0` and
`ear_history = []`; `ALARM_ON` is not touched there. -/
def reset (s : DetState) : DetState :=
  ⟨0, s.alarm_on, []⟩

/-- Final state after feeding a list of `(combined_ear, face_detected)`
frames through `update`. -/
def runState (cfg : Cfg) : DetState → List (ℚ × Bool) → DetState
  | s, [] => s
  | s, f :: fs => runState cfg (update cfg s f.1 f.2).1 fs

/-- Alarm transition event of each frame of a run. -/
def eventList (cfg : Cfg) : DetState → List (ℚ × Bool) → List (Option AlarmEvent)
  | _, [] => []
  | s, f :: fs =>
      (update cfg s f.1 f.2).2.1 :: eventList cfg (update cfg s f.1 f.2).1 fs

/-- Displayed status of each frame of a run. -/
def statusList (cfg : Cfg) : DetState → List (ℚ × Bool) → List Status
  | _, [] => []
  | s, f :: fs =>
      (update cfg s f.1 f.2).2.2 :: statusList cfg (update cfg s f.1 f.2).1 fs

/-- Counter value after each frame of a run. -/
def counterList (cfg : Cfg) : DetState → List (ℚ × Bool) → List ℕ
  | _, [] => []
  | s, f :: fs =>
      (update cfg s f.1 f.2).1.counter :: counterList cfg (update cfg s f.1 f.2).1 fs

/-- Reference configuration of the end-to-end scenario: threshold 0.22,
required frames 25 (margin is the fixed 0.02). -/
def scenarioCfg : Cfg := ⟨22/100, 25⟩

/-- Thirty face-detected frames of combined EAR 0.10. -/
def lowFrames : List (ℚ × Bool) := List.replicate 30 ((1/10 : ℚ), true)

/-- The scenario trace: 30 frames at 0.10 followed by one face-detected
frame at 0.40. -/
def scenarioFrames : List (ℚ × Bool) := lowFrames ++ [((4/10 : ℚ), true)]

/-- Folding `max` over a list of copies of the start value leaves the
start value. -/
theorem foldl_max_const (xs : List ℚ) (a : ℚ) (h : ∀ x ∈ xs, x = a) :
    xs.foldl max a = a := by
  induction xs with
  | nil => rfl
  | cons x xs ih =>
    have hx : x = a := h x (by simp)
    rw [List.foldl_cons, hx, max_self]
    exact ih fun y hy => h y (by simp [hy])

/-- Folding `min` over a list of copies of the start value leaves the
start value. -/
theorem foldl_min_const (xs : List ℚ) (a : ℚ) (h : ∀ x ∈ xs, x = a) :
    xs.foldl min a = a := by
  induction xs with
  | nil => rfl
  | cons x xs ih =>
    have hx : x = a := h x (by simp)
    rw [List.foldl_cons, hx, min_self]
    exact ih fun y hy => h y (by simp [hy])

/-- Pushing onto a window shorter than 5 appends without eviction. -/
theorem pushEar_of_lt (h : List ℚ) (e : ℚ) (hlt : h.length < 5) :
    pushEar h e = h ++ [e] := by
  unfold pushEar
  rw [if_neg]
  simp
  omega

/-- Pushing onto a full window of 5 evicts the oldest element. -/
theorem pushEar_of_eq (h : List ℚ) (e : ℚ) (heq : h.length = 5) :
    pushEar h e = h.tail ++ [e] := by
  unfold pushEar
  rw [if_pos (by simp [heq])]
  cases h with
  | nil => simp at heq
  | cons a as => simp

/-- The window push preserves the size bound 5. -/
theorem pushEar_length_le (h : List ℚ) (e : ℚ) (hle : h.length ≤ 5) :
    (pushEar h e).length ≤ 5 := by
  unfold pushEar
  split
  · simp
    omega
  · next hc =>
    simp at hc ⊢
    omega

/-- Counter result of a face-detected frame, by threshold cases. -/
theorem update_counter_cases (cfg : Cfg) (s : DetState) (e : ℚ) :
    (update cfg s e true).1.counter =
      if smoothedEar (pushEar s.ear_history e) < cfg.ear then s.counter + 1
      else if cfg.ear + margin < smoothedEar (pushEar s.ear_history e) then s.counter - 1
      else s.counter := by
  simp only [update]
  split_ifs <;> rfl

/-- A face-detected frame always pushes the combined EAR into the window. -/
theorem update_window_face (cfg : Cfg) (s : DetState) (e : ℚ) :
    (update cfg s e true).1.ear_history = pushEar s.ear_history e := by
  simp only [update]
  split_ifs <;> rfl

/-- A `TurnedOn` event is only emitted from a state with the alarm off. -/
theorem turnedOn_pre (cfg : Cfg) (s : DetState) (e : ℚ) (face : Bool)
    (h : (update cfg s e face).2.1 = some AlarmEvent.TurnedOn) :
    s.alarm_on = false := by
  cases face with
  | false => simp [update] at h
  | true =>
    simp only [update] at h
    split_ifs at h <;> simp_all

/-- After a frame that emits `TurnedOn`, the alarm is on. -/
theorem turnedOn_post (cfg : Cfg) (s : DetState) (e : ℚ) (face : Bool)
    (h : (update cfg s e face).2.1 = some AlarmEvent.TurnedOn) :
    (update cfg s e face).1.alarm_on = true := by
  cases face with
  | false => simp [update] at h
  | true =>
    simp only [update] at h ⊢
    split_ifs at h ⊢ <;> simp_all

/-- Whenever a frame takes the alarm from on to off, that frame emits
`TurnedOff`. -/
theorem turnedOff_of_alarm_drop (cfg : Cfg) (s : DetState) (e : ℚ) (face : Bool)
    (h1 : s.alarm_on = true)
    (h2 : (update cfg s e face).1.alarm_on = false) :
    (update cfg s e face).2.1 = some AlarmEvent.TurnedOff := by
  cases face with
  | false => simp only [update] at h2; simp_all
  | true =>
    simp only [update] at h2 ⊢
    split_ifs at h2 ⊢ <;> simp_all

/-- From a state with the alarm on, a run that never emits `TurnedOff`
never emits `TurnedOn` either. -/
theorem noOn_of_noOff (cfg : Cfg) :
    ∀ (fs : List (ℚ × Bool)) (s : DetState),
      s.alarm_on = true →
      some AlarmEvent.TurnedOff ∉ eventList cfg s fs →
      some AlarmEvent.TurnedOn ∉ eventList cfg s fs
  | [], s, _, _ => by simp [eventList]
  | f :: fs, s, hOn, hNoOff => by
    intro hmem
    rcases List.mem_cons.mp hmem with hhd | htl
    · have := turnedOn_pre cfg s f.1 f.2 hhd.symm
      simp [hOn] at this
    · have hAlarm : (update cfg s f.1 f.2).1.alarm_on = true := by
        by_contra hF
        have hoff := turnedOff_of_alarm_drop cfg s f.1 f.2 hOn (by simpa using hF)
        exact hNoOff (by simp [eventList, hoff.symm, List.mem_cons])
      have hNoOff2 : some AlarmEvent.TurnedOff ∉ eventList cfg (update cfg s f.1 f.2).1 fs := by
        intro hm
        exact hNoOff (by simp [eventList, List.mem_cons, hm])
      exact noOn_of_noOff cfg fs _ hAlarm hNoOff2 htl

/-- Claim C1, counterexample: from a state with the alarm active, the
reset of lines 374-378 leaves `alarm_on` set, refuting the claim that
reset unconditionally sets `alarm_on = false`. -/
theorem reset_alarm_counterexample :
    ¬ ((reset ⟨3, true, [1/10]⟩).alarm_on = false) := by
  with_unfolding_all decide

/-- Claim C1, amended: for every prior state, reset clears the smoothing
window to empty and sets counter = 0, but leaves `alarm_on` at its prior
value (the code at lines 374-378 only touches `COUNTER` and
`ear_history`); no transition event is emitted (reset performs no alarm
action), and reset is idempotent: calling it twice equals calling it
once. -/
theorem reset_spec (s : DetState) :
    reset s = ⟨0, s.alarm_on, []⟩ ∧ reset (reset s) = reset s :=
  ⟨rfl, rfl⟩

/-- Claim C2, counterexample: with threshold 0.22 and required frames 1,
feed one face-detected frame of EAR 0.10 (the alarm turns on), then one
frame with no face: after that update the alarm is still on but the
emitted status is `Awake`, refuting the claim that the status is `Drowsy`
if and only if `alarm_on` holds after the update. -/
theorem status_alarm_counterexample :
    (update ⟨22/100, 1⟩ (update ⟨22/100, 1⟩ init (1/10) true).1 (1/10) false).1.alarm_on = true ∧
    (update ⟨22/100, 1⟩ (update ⟨22/100, 1⟩ init (1/10) true).1 (1/10) false).2.2 = Status.Awake ∧
    ¬ (((update ⟨22/100, 1⟩ (update ⟨22/100, 1⟩ init (1/10) true).1 (1/10) false).2.2 = Status.Drowsy) ↔
       ((update ⟨22/100, 1⟩ (update ⟨22/100, 1⟩ init (1/10) true).1 (1/10) false).1.alarm_on = true)) := by
  refine ⟨?_, ?_, ?_⟩ <;> with_unfolding_all decide

/-- Claim C2, amended: the status emitted by a per-frame update is
`Drowsy` exactly when the frame has a detected face, the smoothed EAR
(after pushing the new value) is below the threshold, and the
incremented counter reaches the required frames; on every other frame —
including above-threshold frames and no-face frames with the alarm still
latched on — the status is `Awake`, regardless of `alarm_on`. -/
theorem status_iff_drowsy_branch (cfg : Cfg) (s : DetState) (e : ℚ) (face : Bool) :
    (update cfg s e face).2.2 = Status.Drowsy ↔
      face = true ∧ smoothedEar (pushEar s.ear_history e) < cfg.ear ∧
        cfg.frames ≤ s.counter + 1 := by
  cases face with
  | false => simp [update]
  | true =>
    simp only [update]
    split_ifs <;> simp_all

/-- Claim C3, counterexample: in the reference scenario (threshold 0.22,
required frames 25, margin 0.02), after 30 face-detected frames of EAR
0.10 the counter is 30; the additional face-detected frame of EAR 0.40
takes it to 31 — the counter increases, refuting the claim that this
frame decrements it (by at most 1). -/
theorem scenario_counterexample :
    (runState scenarioCfg init lowFrames).counter = 30 ∧
    (runState scenarioCfg init scenarioFrames).counter = 31 ∧
    ¬ ((runState scenarioCfg init scenarioFrames).counter ≤
        (runState scenarioCfg init lowFrames).counter) := by
  refine ⟨?_, ?_, ?_⟩ <;> with_unfolding_all decide

/-- Claim C3, amended: in the reference scenario, the status is `Awake`
on frames 1-24 and `Drowsy` from frame 25 on, a single `TurnedOn` fires
exactly at frame 25 (where the counter first reaches 25) and no other
event fires; the counter after frame k is exactly k, so feeding the
frame of EAR 0.40 after the 30 low frames increments the counter to 31
(its smoothed EAR is (4·0.10 + 0.40)/5 = 0.16, still below the
threshold, so the hysteresis decrement path is not taken) and the status
remains `Drowsy`. -/
theorem scenario_trace :
    statusList scenarioCfg init scenarioFrames =
      List.replicate 24 Status.Awake ++ List.replicate 7 Status.Drowsy ∧
    eventList scenarioCfg init scenarioFrames =
      List.replicate 24 none ++ some AlarmEvent.TurnedOn :: List.replicate 6 none ∧
    counterList scenarioCfg init scenarioFrames = (List.range 31).map (· + 1) ∧
    smoothedEar (pushEar (runState scenarioCfg init lowFrames).ear_history (4/10)) = 16/100 ∧
    (runState scenarioCfg init scenarioFrames).counter = 31 ∧
    (runState scenarioCfg init scenarioFrames).alarm_on = true := by
  refine ⟨?_, ?_, ?_, ?_, ?_, ?_⟩ <;> with_unfolding_all decide

/-- Claim C4 (confirmed): on a face-detected frame with threshold T and
the fixed margin M = 0.02, writing `sm` for the mean of the window after
appending the new combined EAR: `sm < T` increments the counter by
exactly 1; `T ≤ sm ≤ T + M` leaves the counter unchanged (so values in
(T, T+M], and T itself, never decrement it); only `sm > T + M`
decrements it by 1, floored at 0 (ℕ subtraction). -/
theorem hysteresis_counter (cfg : Cfg) (s : DetState) (e : ℚ) :
    (smoothedEar (pushEar s.ear_history e) < cfg.ear →
      (update cfg s e true).1.counter = s.counter + 1) ∧
    (cfg.ear ≤ smoothedEar (pushEar s.ear_history e) →
      smoothedEar (pushEar s.ear_history e) ≤ cfg.ear + margin →
      (update cfg s e true).1.counter = s.counter) ∧
    (cfg.ear + margin < smoothedEar (pushEar s.ear_history e) →
      (update cfg s e true).1.counter = s.counter - 1) := by
  refine ⟨?_, ?_, ?_⟩
  · intro h1
    rw [update_counter_cases, if_pos h1]
  · intro h1 h2
    rw [update_counter_cases, if_neg (not_lt.mpr h1), if_neg (not_lt.mpr h2)]
  · intro h1
    have hm : (0 : ℚ) < margin := by norm_num [margin]
    have hge : ¬ smoothedEar (pushEar s.ear_history e) < cfg.ear :=
      not_lt.mpr (le_of_lt (lt_trans (lt_add_of_pos_right _ hm) h1))
    rw [update_counter_cases, if_neg hge, if_pos h1]

/-- Witness for C4: from the initial state, a frame of EAR 0.10 has
smoothed EAR 0.10 < 0.22 and increments the counter; a frame of EAR 0.23
has smoothed EAR in [0.22, 0.24] and leaves it unchanged; a frame of EAR
0.30 has smoothed EAR above 0.24 and decrements it (floored at 0). -/
theorem hysteresis_counter_witness :
    (update ⟨22/100, 25⟩ init (1/10) true).1.counter = init.counter + 1 ∧
    (update ⟨22/100, 25⟩ init (23/100) true).1.counter = init.counter ∧
    (update ⟨22/100, 25⟩ init (3/10) true).1.counter = init.counter - 1 :=
  ⟨(hysteresis_counter ⟨22/100, 25⟩ init (1/10)).1 (by with_unfolding_all decide),
   (hysteresis_counter ⟨22/100, 25⟩ init (23/100)).2.1
     (by with_unfolding_all decide) (by with_unfolding_all decide),
   (hysteresis_counter ⟨22/100, 25⟩ init (3/10)).2.2 (by with_unfolding_all decide)⟩

/-- Claim C5 (confirmed): on every 16-landmark eye with strictly positive
eye width (|max x − min x| over all 16 landmarks), `calculate_ear`
returns |mean y of the first 8 landmarks − mean y of the last 8|
divided by the eye width; on the synthetic eye with upper landmarks at
y = 0.4, lower at y = 0.5 and x spanning [0, 0.2] it returns 0.5. -/
theorem calculate_ear_correct :
    (∀ l : List Landmark, l.length = 16 → 0 < eyeWidth l →
      calculate_ear l = |meanY (l.take 8) - meanY (l.drop 8)| / eyeWidth l) ∧
    calculate_ear synthEye = 1/2 := by
  constructor
  · intro l hlen hw
    unfold calculate_ear
    rw [if_pos hlen, if_pos hw]
  · with_unfolding_all decide

/-- Witness for C5: the synthetic eye has 16 landmarks and positive eye
width, and the general formula applies to it. -/
theorem calculate_ear_correct_witness :
    synthEye.length = 16 ∧ 0 < eyeWidth synthEye ∧
    calculate_ear synthEye =
      |meanY (synthEye.take 8) - meanY (synthEye.drop 8)| / eyeWidth synthEye :=
  ⟨by with_unfolding_all decide, by with_unfolding_all decide,
   calculate_ear_correct.1 synthEye (by with_unfolding_all decide)
     (by with_unfolding_all decide)⟩

/-- Claim C6 (confirmed): `calculate_ear` is a total function that
returns 0 on every input of length other than 16, and returns 0 on every
16-landmark input whose x-coordinates are all identical (zero eye
width), the division being guarded by `0 < eye_width`. -/
theorem calculate_ear_safe :
    (∀ l : List Landmark, l.length ≠ 16 → calculate_ear l = 0) ∧
    (∀ (l : List Landmark) (c : ℚ), l.length = 16 → (∀ p ∈ l, p.x = c) →
      calculate_ear l = 0) := by
  constructor
  · intro l h
    unfold calculate_ear
    rw [if_neg h]
  · intro l c hlen hx
    have hw : eyeWidth l = 0 := by
      cases l with
      | nil => simp at hlen
      | cons p ps =>
        have hp : p.x = c := hx p (by simp)
        have hall : ∀ x ∈ ps.map Landmark.x, x = p.x := by
          intro x hm
          rcases List.mem_map.mp hm with ⟨q, hq, rfl⟩
          rw [hp]
          exact hx q (by simp [hq])
        unfold eyeWidth listMax listMin
        simp only [List.map_cons]
        rw [foldl_max_const _ _ hall, foldl_min_const _ _ hall]
        simp
    unfold calculate_ear
    rw [if_pos hlen, if_neg (by rw [hw]; exact lt_irrefl 0)]

/-- Witness for C6: the empty landmark list yields 0, and the 16-landmark
degenerate eye with all x = 0.1 yields 0. -/
theorem calculate_ear_safe_witness :
    calculate_ear [] = 0 ∧ calculate_ear degenEye = 0 :=
  ⟨calculate_ear_safe.1 [] (by decide),
   calculate_ear_safe.2 degenEye (1/10) (by with_unfolding_all decide)
     (by with_unfolding_all decide)⟩

/-- Claim C7 (confirmed): for every configuration, start state and input
sequence, once a frame emits `TurnedOn` (the alarm going from off to on,
the frame that plays the alarm and logs), no later frame emits another
`TurnedOn` as long as no `TurnedOff` has been emitted in between — at
most one `TurnedOn` per continuous drowsiness episode. -/
theorem alarm_latch (cfg : Cfg) (s0 : DetState) (pre : List (ℚ × Bool))
    (e : ℚ) (face : Bool) (post : List (ℚ × Bool))
    (hOn : (update cfg (runState cfg s0 pre) e face).2.1 = some AlarmEvent.TurnedOn)
    (hNoOff : some AlarmEvent.TurnedOff ∉
      eventList cfg (update cfg (runState cfg s0 pre) e face).1 post) :
    some AlarmEvent.TurnedOn ∉
      eventList cfg (update cfg (runState cfg s0 pre) e face).1 post :=
  noOn_of_noOff cfg post _ (turnedOn_post cfg _ e face hOn) hNoOff

/-- Witness for C7: with threshold 0.22 and required frames 1, the first
low-EAR frame emits `TurnedOn`, and the continuation of one more low
face frame and one no-face frame (which emits no `TurnedOff`) emits no
further `TurnedOn`. -/
theorem alarm_latch_witness :
    (update ⟨22/100, 1⟩ (runState ⟨22/100, 1⟩ init []) (1/10) true).2.1 =
      some AlarmEvent.TurnedOn ∧
    some AlarmEvent.TurnedOn ∉
      eventList ⟨22/100, 1⟩ (update ⟨22/100, 1⟩ (runState ⟨22/100, 1⟩ init []) (1/10) true).1
        [((1/10 : ℚ), true), ((3/10 : ℚ), false)] :=
  ⟨by with_unfolding_all decide,
   alarm_latch ⟨22/100, 1⟩ init [] (1/10) true [((1/10 : ℚ), true), ((3/10 : ℚ), false)]
     (by with_unfolding_all decide) (by with_unfolding_all decide)⟩

/-- Claim C8 (confirmed): on a frame with no detected face, the counter
becomes `counter - 1` in ℕ (decrement by 1 floored at 0, so a counter of
0 stays 0 and the counter never increases), and the threshold is not
evaluated: the whole update result is independent of the combined EAR
and of the configuration. -/
theorem noface_counter_decay (cfg cfg2 : Cfg) (s : DetState) (e e2 : ℚ) :
    (update cfg s e false).1.counter = s.counter - 1 ∧
    (s.counter = 0 → (update cfg s e false).1.counter = 0) ∧
    (update cfg s e false).1.counter ≤ s.counter ∧
    update cfg s e false = update cfg2 s e2 false := by
  refine ⟨rfl, ?_, Nat.sub_le _ _, rfl⟩
  intro h
  simp [update, h]

/-- Witness for C8: a no-face frame from the initial state (counter 0)
keeps the counter at 0, and two no-face updates with different EAR
values and configurations coincide. -/
theorem noface_counter_decay_witness :
    (update ⟨22/100, 25⟩ init (1/10) false).1.counter = 0 ∧
    update ⟨22/100, 25⟩ init (1/10) false = update ⟨17/100, 20⟩ init (9/10) false :=
  ⟨(noface_counter_decay ⟨22/100, 25⟩ ⟨17/100, 20⟩ init (1/10) (9/10)).2.1 rfl,
   (noface_counter_decay ⟨22/100, 25⟩ ⟨17/100, 20⟩ init (1/10) (9/10)).2.2.2⟩

/-- Claim C9 (confirmed): on every per-frame update the counter (a ℕ,
hence never negative) changes by at most 1 — it becomes exactly
counter + 1 on a closed-coded frame (face detected, smoothed EAR below
threshold), exactly counter − 1 (ℕ subtraction, floored at 0) on an
opening-coded frame (smoothed EAR above threshold + margin) or a no-face
frame — the smoothing window never exceeds 5 values, growing by
appending while shorter than 5 and evicting the oldest (head) element
when already at 5; after a reset the counter is 0 and the window is
within bounds. -/
theorem counter_window_invariants (cfg : Cfg) (s : DetState) (e : ℚ) (face : Bool) :
    ((update cfg s e face).1.counter ≤ s.counter + 1 ∧
      s.counter ≤ (update cfg s e face).1.counter + 1) ∧
    (face = true → smoothedEar (pushEar s.ear_history e) < cfg.ear →
      (update cfg s e face).1.counter = s.counter + 1) ∧
    (face = true → cfg.ear + margin < smoothedEar (pushEar s.ear_history e) →
      (update cfg s e face).1.counter = s.counter - 1) ∧
    (face = false → (update cfg s e face).1.counter = s.counter - 1) ∧
    (s.ear_history.length ≤ 5 → (update cfg s e face).1.ear_history.length ≤ 5) ∧
    (face = true → s.ear_history.length < 5 →
      (update cfg s e face).1.ear_history = s.ear_history ++ [e]) ∧
    (face = true → s.ear_history.length = 5 →
      (update cfg s e face).1.ear_history = s.ear_history.tail ++ [e]) ∧
    (reset s).counter = 0 ∧ (reset s).ear_history.length ≤ 5 := by
  refine ⟨?_, ?_, ?_, ?_, ?_, ?_, ?_, rfl, by simp [reset]⟩
  · cases face with
    | false =>
      have hc : (update cfg s e false).1.counter = s.counter - 1 := rfl
      rw [hc]
      omega
    | true =>
      rw [update_counter_cases]
      split_ifs <;> omega
  · intro hface hsm
    subst hface
    rw [update_counter_cases, if_pos hsm]
  · intro hface h1
    subst hface
    have hm : (0 : ℚ) < margin := by norm_num [margin]
    have hge : ¬ smoothedEar (pushEar s.ear_history e) < cfg.ear :=
      not_lt.mpr (le_of_lt (lt_trans (lt_add_of_pos_right _ hm) h1))
    rw [update_counter_cases, if_neg hge, if_pos h1]
  · intro hface
    subst hface
    rfl
  · intro hlen
    cases face with
    | false => exact hlen
    | true =>
      rw [update_window_face]
      exact pushEar_length_le _ _ hlen
  · intro hface hlt
    subst hface
    rw [update_window_face]
    exact pushEar_of_lt _ _ hlt
  · intro hface heq
    subst hface
    rw [update_window_face]
    exact pushEar_of_eq _ _ heq

/-- Witness for C9: concrete frames exercising each case — a closed
frame increments 2 to 3, an opening frame decrements 2 to 1, a no-face
frame decrements 2 to 1, a full window of 5 stays at 5 values, a short
window appends, a full window evicts its head. -/
theorem counter_window_invariants_witness :
    (update ⟨22/100, 25⟩ ⟨2, false, [1/10, 1/10, 1/10, 1/10, 1/10]⟩ (1/10) true).1.counter = 2 + 1 ∧
    (update ⟨22/100, 25⟩ ⟨2, false, [1/10, 1/10, 1/10, 1/10, 1/10]⟩ 2 true).1.counter = 2 - 1 ∧
    (update ⟨22/100, 25⟩ ⟨2, false, [1/10, 1/10, 1/10, 1/10, 1/10]⟩ (1/10) false).1.counter = 2 - 1 ∧
    (update ⟨22/100, 25⟩ ⟨2, false, [1/10, 1/10, 1/10, 1/10, 1/10]⟩ (1/10) true).1.ear_history.length ≤ 5 ∧
    (update ⟨22/100, 25⟩ ⟨2, false, [1/10]⟩ (2/10) true).1.ear_history = [1/10] ++ [2/10] ∧
    (update ⟨22/100, 25⟩ ⟨2, false, [1/10, 1/10, 1/10, 1/10, 1/10]⟩ (2/10) true).1.ear_history =
      [(1/10 : ℚ), 1/10, 1/10, 1/10, 1/10].tail ++ [2/10] :=
  ⟨(counter_window_invariants ⟨22/100, 25⟩ ⟨2, false, [1/10, 1/10, 1/10, 1/10, 1/10]⟩ (1/10) true).2.1
      rfl (by with_unfolding_all decide),
   (counter_window_invariants ⟨22/100, 25⟩ ⟨2, false, [1/10, 1/10, 1/10, 1/10, 1/10]⟩ 2 true).2.2.1
      rfl (by with_unfolding_all decide),
   (counter_window_invariants ⟨22/100, 25⟩ ⟨2, false, [1/10, 1/10, 1/10, 1/10, 1/10]⟩ (1/10) false).2.2.2.1
      rfl,
   (counter_window_invariants ⟨22/100, 25⟩ ⟨2, false, [1/10, 1/10, 1/10, 1/10, 1/10]⟩ (1/10) true).2.2.2.2.1
      (by with_unfolding_all decide),
   (counter_window_invariants ⟨22/100, 25⟩ ⟨2, false, [1/10]⟩ (2/10) true).2.2.2.2.2.1
      rfl (by with_unfolding_all decide),
   (counter_window_invariants ⟨22/100, 25⟩ ⟨2, false, [1/10, 1/10, 1/10, 1/10, 1/10]⟩ (2/10) true).2.2.2.2.2.2.1
      rfl (by with_unfolding_all decide)⟩

/-- Claim C10 (confirmed): a no-face frame leaves the window and the
alarm flag untouched (only the counter decays, so an active alarm never
turns off on a no-face frame even when the counter reaches 0), and the
alarm can go from on to off only on a face-detected frame whose smoothed
EAR exceeds threshold + margin and whose decrement leaves the counter at
0 (the new counter being the old one minus 1, floored). -/
theorem noface_frame_effect (cfg : Cfg) (s : DetState) (e : ℚ) :
    (update cfg s e false).1.ear_history = s.ear_history ∧
    (update cfg s e false).1.alarm_on = s.alarm_on ∧
    (∀ face : Bool, s.alarm_on = true → (update cfg s e face).1.alarm_on = false →
      face = true ∧ cfg.ear + margin < smoothedEar (pushEar s.ear_history e) ∧
      (update cfg s e face).1.counter = 0 ∧
      (update cfg s e face).1.counter = s.counter - 1) := by
  refine ⟨rfl, rfl, ?_⟩
  intro face h1 h2
  cases face with
  | false =>
    have hh : (update cfg s e false).1.alarm_on = s.alarm_on := rfl
    rw [hh, h1] at h2
    exact absurd h2 (by simp)
  | true =>
    simp only [update] at h2 ⊢
    split_ifs at h2 ⊢ <;> simp_all

/-- Witness for C10: from an alarm-on state with counter 1 and window of
five 0.30 values, a face frame of EAR 0.30 has smoothed EAR 0.30 above
0.24, decrements the counter to 0 and is exactly the shape of frame on
which the alarm goes off. -/
theorem noface_frame_effect_witness :
    true = true ∧
    (22/100 : ℚ) + margin <
      smoothedEar (pushEar [3/10, 3/10, 3/10, 3/10, 3/10] (3/10)) ∧
    (update ⟨22/100, 25⟩ ⟨1, true, [3/10, 3/10, 3/10, 3/10, 3/10]⟩ (3/10) true).1.counter = 0 ∧
    (update ⟨22/100, 25⟩ ⟨1, true, [3/10, 3/10, 3/10, 3/10, 3/10]⟩ (3/10) true).1.counter = 1 - 1 :=
  (noface_frame_effect ⟨22/100, 25⟩ ⟨1, true, [3/10, 3/10, 3/10, 3/10, 3/10]⟩ (3/10)).2.2
    true rfl (by with_unfolding_all decide)

end SleepDriver
